import Mathlib

/-!
# Verification development for the PyDevice adapter (`DeviceAdapters/PyDevice/Pydevice.h`)

This file gives a shallow embedding of the PyDevice device adapter: the error
taxonomy and error-text registration performed by the `CPyDeviceBase`
constructor, the `Initialize`/`Shutdown` control flow of `CPyDeviceBase`, the
default and camera-specific `InitializeDevice` hooks, the interpreter lifecycle
manager (`EnsureStarted`/`ReleaseInstance`), the marshaling round trip for
numeric values, and the reference-counted buffer-lifetime discipline around
`lastImage_`, `SnapImage` and `GetImageBuffer`.

Parts of the bridge (`PythonBridge`, `PyObj`, the bodies of the `CPyCamera`
methods) live outside the available source; those definitions are modelled
from the specification and marked as such in their doc comments.  Everything
taken from `Pydevice.h` cites the lines it embeds.
-/

namespace PyDevice

/-- The error taxonomy of the adapter (spec §7).  The first seven kinds
correspond to the codes `ERR_PYTHON_NOT_FOUND`, `ERR_PYTHON_PATH_CONFLICT`,
`ERR_PYTHON_SCRIPT_NOT_FOUND`, `ERR_PYTHON_CLASS_NOT_FOUND`,
`ERR_PYTHON_EXCEPTION`, `ERR_PYTHON_NO_INFO` and
`ERR_PYTHON_MISSING_PROPERTY` used in `Pydevice.h` lines 53-62;
`typeMismatch` is the eighth kind named by the spec's taxonomy. -/
inductive ErrorKind where
  | interpreterNotFound
  | pathConflict
  | scriptNotFound
  | classNotFound
  | pythonException
  | noErrorInfo
  | missingProperty
  | typeMismatch
  deriving DecidableEq, Repr

/-- Return value of a device method: `DEVICE_OK` or one of the adapter's
error codes (the MM integer codes are abstracted to their kinds). -/
inductive MMReturn where
  | deviceOk
  | err (e : ErrorKind)
  deriving DecidableEq, Repr

/-- The error texts registered by the `CPyDeviceBase` constructor
(`Pydevice.h` lines 56-62): one `SetErrorText` call per code.  A kind maps to
`none` when the constructor registers no text for it. -/
def constructorErrorTexts : ErrorKind → Option String
  | .interpreterNotFound =>
      some "Could not initialize python interpreter, perhaps an incorrect path was specified?"
  | .pathConflict => some "All Python devices must have the same Python library path"
  | .scriptNotFound => some "Could not find the python script at the specified location"
  | .classNotFound => some "Could not find a class definition with the specified name"
  | .pythonException =>
      some "The Python code threw an exception, check the CoreLog error log for details"
  | .noErrorInfo => some "A Python error occurred, but no further information was available"
  | .missingProperty =>
      some "The Python class is missing a required property, check CoreLog error log for details"
  | .typeMismatch => none

/-- The error-reporting state of one device: the (mutable) code → text map
kept by the MM base class via `SetErrorText`, and the log written through
`LogMessage`. -/
structure ErrorState where
  errorTexts : ErrorKind → Option String
  log : List String

/-- The device right after the `CPyDeviceBase` constructor ran
(`Pydevice.h` lines 52-65): all constructor error texts registered, nothing
logged yet. -/
def constructedErrorState : ErrorState :=
  { errorTexts := constructorErrorTexts, log := [] }

/-- The error-handler lambda installed by the `CPyDeviceBase` constructor
(`Pydevice.h` lines 52-55): on a reported Python error message, overwrite the
text of `ERR_PYTHON_EXCEPTION` with the message and log the message. -/
def errorHandler (es : ErrorState) (message : String) : ErrorState :=
  { errorTexts := fun k => if k = .pythonException then some message else es.errorTexts k,
    log := es.log ++ [message] }

/-- The process-wide interpreter session state (spec §3, "Interpreter
Session"): running flag, the library path the interpreter was bound to, and
the count of active device instances. -/
structure InterpreterSession where
  running : Bool
  libraryPath : String
  instanceCount : Nat
  deriving DecidableEq, Repr

/-- The process before any device initialized: no interpreter session. -/
def noSession : InterpreterSession :=
  { running := false, libraryPath := "", instanceCount := 0 }

/-- Modelled from the spec: `EnsureStarted(libraryPath)` of the Interpreter
Lifecycle Manager (part of `PythonBridge`, whose implementation is not in the
available source; spec §4.1).  If no session exists, start the interpreter
bound to `libraryPath` (`interpreterNotFound` when the path is invalid or
loading fails, abstracted by the `valid` predicate); if a session exists with
a different library path, fail with `pathConflict`; otherwise succeed and
increment the instance count. -/
def ensureStarted (valid : String → Bool) (s : InterpreterSession)
    (libraryPath : String) : MMReturn × InterpreterSession :=
  if s.running then
    if s.libraryPath = libraryPath then
      (.deviceOk, { s with instanceCount := s.instanceCount + 1 })
    else
      (.err .pathConflict, s)
  else if valid libraryPath then
    (.deviceOk, { running := true, libraryPath := libraryPath, instanceCount := 1 })
  else
    (.err .interpreterNotFound, s)

/-- Modelled from the spec: `ReleaseInstance()` of the Interpreter Lifecycle
Manager (spec §4.1): decrements the instance count; does not stop the
interpreter even at zero. -/
def releaseInstance (s : InterpreterSession) : InterpreterSession :=
  { s with instanceCount := s.instanceCount - 1 }

/-- One interpreter-lifecycle interaction, for stating the temporal claim
about all reachable session states.  `ensure v p` is an `EnsureStarted` call
with a path whose validity is `v`; `release` is a `ReleaseInstance` call (as
performed by device `Shutdown`). -/
inductive SessionOp where
  | ensure (v : Bool) (path : String)
  | release
  deriving DecidableEq, Repr

/-- Applies one lifecycle interaction to the session state. -/
def stepSession (op : SessionOp) (s : InterpreterSession) : InterpreterSession :=
  match op with
  | .ensure v path => (ensureStarted (fun _ => v) s path).2
  | .release => releaseInstance s

/-- Applies a sequence of lifecycle interactions to the session state. -/
def runSession (ops : List SessionOp) (s : InterpreterSession) : InterpreterSession :=
  ops.foldl (fun s op => stepSession op s) s

/-- The device-façade state of spec §4.5's state machine, collapsed to the
stable states (the transients are inside single synchronous calls). -/
inductive DevState where
  | uninitialized
  | ready
  deriving DecidableEq, Repr

/-- The script class the bridge instantiates, abstracted to the set of member
names the class defines (spec §4.3: discovery is by exact name match). -/
structure ScriptClass where
  members : List String
  deriving DecidableEq, Repr

/-- Per-device binding state (spec §3, "Device Binding"): the façade state,
whether the instantiated script-object handle is held, and whether this
binding holds one reference in the session instance count. -/
structure PyDeviceState where
  devState : DevState
  objectHeld : Bool
  sessionRef : Bool
  deriving DecidableEq, Repr

/-- A device binding before `Initialize`: uninitialized, holding nothing. -/
def freshDevice : PyDeviceState :=
  { devState := .uninitialized, objectHeld := false, sessionRef := false }

/-- The pre-init configuration of one device together with the outcomes of
the interpreter-side steps of `PythonBridge::Initialize`: whether the script
file is found, whether the named class is found, whether the class
constructor raises, and the member set of the script class. -/
structure BridgeConfig where
  libraryPath : String
  scriptFound : Bool
  classFound : Bool
  ctorRaises : Bool
  scriptClass : ScriptClass
  deriving DecidableEq, Repr

/-- Modelled from the spec: `PythonBridge::Initialize` (implementation not in
the available source; spec §2 control flow and §4.1-§4.4): `EnsureStarted`
with the configured library path, then load the script (`scriptNotFound` on
failure), locate the named class (`classNotFound`), and instantiate it
(`pythonException` when the constructor raises).  On success the binding
holds the instantiated object handle; once `EnsureStarted` succeeded the
binding counts in the session instance count even if a later step fails. -/
def pythonBridgeInit (valid : String → Bool) (cfg : BridgeConfig)
    (s : InterpreterSession) (d : PyDeviceState) :
    MMReturn × InterpreterSession × PyDeviceState :=
  let e := ensureStarted valid s cfg.libraryPath
  if e.1 ≠ .deviceOk then
    (e.1, e.2, d)
  else
    let d1 := { d with sessionRef := true }
    if !cfg.scriptFound then
      (.err .scriptNotFound, e.2, d1)
    else if !cfg.classFound then
      (.err .classNotFound, e.2, d1)
    else if cfg.ctorRaises then
      (.err .pythonException, e.2, d1)
    else
      (.deviceOk, e.2, { d1 with objectHeld := true })

/-- Modelled from the spec: `PythonBridge::Destruct`, the body of
`CPyDeviceBase::Shutdown` (`Pydevice.h` lines 93-95; implementation not in
the available source; spec §3 "Device Binding" and §4.1): releases all held
handles, releases this binding's session reference (the interpreter itself is
never stopped), and leaves the device uninitialized.  Safe on a partially
constructed binding: it only releases what is actually held. -/
def cpyShutdown (s : InterpreterSession) (d : PyDeviceState) :
    InterpreterSession × PyDeviceState :=
  (if d.sessionRef then releaseInstance s else s,
   { devState := .uninitialized, objectHeld := false, sessionRef := false })

/-- Embedded from `CPyDeviceBase::InitializeDevice` (`Pydevice.h` lines
110-112): the default hook unconditionally returns `DEVICE_OK`, ignoring the
script class. -/
def baseInitializeDeviceHook (_c : ScriptClass) : MMReturn :=
  .deviceOk

/-- `CPyGenericDevice` (`Pydevice.h` lines 119-128) does not override
`InitializeDevice`, so its hook is the base class default. -/
def genericInitializeDeviceHook : ScriptClass → MMReturn :=
  baseInitializeDeviceHook

/-- Modelled from the spec: `CPyCamera::InitializeDevice` (declared at
`Pydevice.h` line 159, body not in the available source; spec §4.3 and §8):
checks the mandatory camera members — the `trigger` callable — and fails with
`missingProperty` when one is missing; optional members such as `wait` only
disable their feature. -/
def cameraInitializeDeviceHook (c : ScriptClass) : MMReturn :=
  if c.members.contains "trigger" then .deviceOk else .err .missingProperty

/-- Embedded from `CPyDeviceBase::Initialize` (`Pydevice.h` lines 75-87):
run `python_.Initialize(this)`; on failure call `Shutdown()` and return the
error; otherwise run the `InitializeDevice()` hook; on failure call
`Shutdown()` and return the error; otherwise return `DEVICE_OK` (the device
is then Ready, per spec §4.5's state machine). -/
def cpyDeviceInit (valid : String → Bool) (cfg : BridgeConfig)
    (hook : ScriptClass → MMReturn) (s : InterpreterSession)
    (d : PyDeviceState) : MMReturn × InterpreterSession × PyDeviceState :=
  let r := pythonBridgeInit valid cfg s d
  if r.1 ≠ .deviceOk then
    let sh := cpyShutdown r.2.1 r.2.2
    (r.1, sh.1, sh.2)
  else
    let h := hook cfg.scriptClass
    if h ≠ .deviceOk then
      let sh := cpyShutdown r.2.1 r.2.2
      (h, sh.1, sh.2)
    else
      (.deviceOk, r.2.1, { r.2.2 with devState := .ready })

/-- The Marshaled Value tagged union (spec §3): integer, floating-point,
boolean, text, or an opaque reference to an interpreter-owned buffer object.
A floating-point value is represented by its 64-bit pattern (a `Nat` below
`2 ^ 64`): the interpreter's float type is a C double, so marshaling carries
the representation across the boundary exactly, and no floating-point
arithmetic — only transport — is involved here. -/
inductive MarshaledValue where
  | intVal (n : Int)
  | floatVal (bits : Nat)
  | boolVal (b : Bool)
  | textVal (s : String)
  | bufferRef (objId : Nat)
  deriving DecidableEq, Repr

/-- Smallest value of the native signed 64-bit integer type. -/
def longMin : Int := -(2 ^ 63)

/-- Largest value of the native signed 64-bit integer type. -/
def longMax : Int := 2 ^ 63 - 1

/-- Modelled from the spec: `FromNative` for a native integer (Marshaling
Layer, implementation not in the available source; spec §4.3): total in the
native → interpreter direction; the interpreter integer is unbounded, so the
value is carried over exactly. -/
def fromNativeLong (n : Int) : MarshaledValue :=
  .intVal n

/-- Modelled from the spec: `ToNative` for a native integer (spec §3, §4.3):
partial in the interpreter → native direction — fails when the value's tag is
not integer or the integer does not fit the native 64-bit range. -/
def toNativeLong : MarshaledValue → Option Int
  | .intVal n => if longMin ≤ n ∧ n ≤ longMax then some n else none
  | _ => none

/-- Modelled from the spec: `FromNative` for a native double (spec §3, §4.3):
total — the interpreter float is a C double, so the 64-bit representation of
the native value is carried over unchanged. -/
def fromNativeDouble (bits : Nat) : MarshaledValue :=
  .floatVal (bits % 2 ^ 64)

/-- Modelled from the spec: `ToNative` for a native double (spec §3, §4.3):
partial — fails when the value's tag is not floating-point; otherwise the
C-double representation is handed back unchanged. -/
def toNativeDouble : MarshaledValue → Option Nat
  | .floatVal bits => some bits
  | _ => none

/-- One interpreter-heap object as the bridge sees it: its identity, its
reference count, and its pixel contents (for image-buffer objects). -/
structure HeapCell where
  id : Nat
  refcount : Nat
  pixels : List Nat
  deriving DecidableEq, Repr

/-- The interpreter-owned heap, as the list of live objects. -/
abbrev PyHeap := List HeapCell

/-- Looks up the object with the given id. -/
def heapLookup (h : PyHeap) (i : Nat) : Option HeapCell :=
  h.find? (fun c => c.id == i)

/-- A `PyObj` copy/borrow: increments the reference count of object `i`
(spec §4.2, `Borrow()`). -/
def incref (h : PyHeap) (i : Nat) : PyHeap :=
  h.map (fun c => if c.id == i then { c with refcount := c.refcount + 1 } else c)

/-- A `PyObj` destruction: decrements the reference count of object `i`
(spec §4.2). -/
def decref (h : PyHeap) (i : Nat) : PyHeap :=
  h.map (fun c => if c.id == i then { c with refcount := c.refcount - 1 } else c)

/-- Modelled from the spec: one round of interpreter memory reclamation
(spec §4.3): the interpreter may free any of the chosen victim objects whose
reference count is zero; an object that still has a holder is never freed,
and surviving objects are left untouched. -/
def reclaim (victims : List Nat) (h : PyHeap) : PyHeap :=
  h.filter (fun c => !(victims.contains c.id && c.refcount == 0))

/-- Any number of reclamation rounds, each with its own victim choice. -/
def reclaimRounds (rounds : List (List Nat)) (h : PyHeap) : PyHeap :=
  rounds.foldl (fun h v => reclaim v h) h

/-- The state of one `CPyCamera` instance (`Pydevice.h` lines 130-160): the
base-device binding, the id of the numpy array held by `lastImage_`
(`Pydevice.h` lines 131-132: a reference count is held so the array does not
get deleted during processing), the id of the image attribute currently
exposed by the Python camera object, and whether a `wait` member was found
(`waitFunction_`). -/
structure CameraState where
  base : PyDeviceState
  lastImage : Option Nat
  imageAttr : Option Nat
  hasWait : Bool
  deriving DecidableEq, Repr

/-- Modelled from the spec: `CPyCamera::SnapImage` (declared `Pydevice.h`
line 157, body not in the available source; spec §4.5): invoke the `trigger`
callable, then the `wait` callable if present.  An interpreter exception in
either is routed through the error handler of `Pydevice.h` lines 52-55 and
converted to the `pythonException` code; the camera state is untouched.  On
success the previously retained `lastImage_` handle is released (the frame is
being replaced), the script object's previous frame loses the script-side
reference, and the freshly produced frame (`frameId`, `framePixels`) becomes
the object's image attribute with one script-side reference. -/
def snapImage (cam : CameraState) (es : ErrorState) (h : PyHeap)
    (triggerRaises waitRaises : Option String) (frameId : Nat)
    (framePixels : List Nat) : MMReturn × CameraState × ErrorState × PyHeap :=
  match triggerRaises with
  | some msg => (.err .pythonException, cam, errorHandler es msg, h)
  | none =>
    match (if cam.hasWait then waitRaises else none) with
    | some msg => (.err .pythonException, cam, errorHandler es msg, h)
    | none =>
      let h1 := match cam.lastImage with
        | some j => decref h j
        | none => h
      let h2 := match cam.imageAttr with
        | some j => decref h1 j
        | none => h1
      (.deviceOk,
       { cam with lastImage := none, imageAttr := some frameId },
       es,
       h2 ++ [⟨frameId, 1, framePixels⟩])

/-- Modelled from the spec: `CPyCamera::GetImageBuffer` (declared
`Pydevice.h` line 143, body not in the available source; spec §4.3 and §4.5):
retrieve the image attribute of the Python camera object, retain the owning
handle in `lastImage_` (incrementing the buffer's reference count unless it
is already the retained one), and return the raw pointer — modelled as the
buffer's id and the pixel data it points at. -/
def getImageBuffer (cam : CameraState) (h : PyHeap) :
    Option (Nat × List Nat) × CameraState × PyHeap :=
  match cam.imageAttr with
  | none => (none, cam, h)
  | some i =>
    match heapLookup h i with
    | none => (none, cam, h)
    | some c =>
      if cam.lastImage = some i then
        (some (i, c.pixels), cam, h)
      else
        (some (i, c.pixels), { cam with lastImage := some i }, incref h i)

/-- Modelled from the spec: the camera part of `Shutdown` (spec §3, "Device
Binding": destroyed during Shutdown, releasing all held handles): the
`lastImage_` handle is released and cleared. -/
def cameraShutdown (cam : CameraState) (h : PyHeap) : CameraState × PyHeap :=
  (⟨{ devState := .uninitialized, objectHeld := false, sessionRef := false },
    none, none, cam.hasWait⟩,
   match cam.lastImage with
   | some j => decref h j
   | none => h)

/-! ## Helper lemmas -/

/-- A cell found by `heapLookup` and kept by a filter is still the cell
found after filtering. -/
theorem heapLookup_filter_of_kept (p : HeapCell → Bool) (h : PyHeap) (i : Nat)
    (c : HeapCell) (hl : heapLookup h i = some c) (hp : p c = true) :
    heapLookup (h.filter p) i = some c := by
  induction h with
  | nil => simp [heapLookup] at hl
  | cons a t ih =>
    unfold heapLookup at hl ⊢
    by_cases hb : (a.id == i) = true
    · simp only [List.find?_cons, hb] at hl
      have hc : a = c := by simpa using hl
      subst hc
      rw [List.filter_cons, if_pos hp]
      simp only [List.find?_cons, hb]
    · rw [Bool.not_eq_true] at hb
      simp only [List.find?_cons, hb] at hl
      have ht := ih hl
      rw [List.filter_cons]
      by_cases hpa : p a = true
      · rw [if_pos hpa]
        simp only [List.find?_cons, hb]
        exact ht
      · rw [if_neg hpa]
        exact ht

/-- Reclamation never removes or changes an object that still has a
holder. -/
theorem heapLookup_reclaim (v : List Nat) (h : PyHeap) (i : Nat) (c : HeapCell)
    (hl : heapLookup h i = some c) (hrc : 1 ≤ c.refcount) :
    heapLookup (reclaim v h) i = some c := by
  apply heapLookup_filter_of_kept _ _ _ _ hl
  have h0 : (c.refcount == 0) = false := by
    simp only [beq_eq_false_iff_ne, ne_eq]
    omega
  simp [h0]

/-- Any number of reclamation rounds never remove or change an object that
still has a holder. -/
theorem heapLookup_reclaimRounds (rounds : List (List Nat)) (h : PyHeap)
    (i : Nat) (c : HeapCell) (hl : heapLookup h i = some c)
    (hrc : 1 ≤ c.refcount) :
    heapLookup (reclaimRounds rounds h) i = some c := by
  induction rounds generalizing h with
  | nil => simpa [reclaimRounds] using hl
  | cons v rs ih =>
    unfold reclaimRounds
    simp only [List.foldl_cons]
    exact ih _ (heapLookup_reclaim v h i c hl hrc)

/-- Looking up the borrowed object after `incref` yields the same cell with
the count bumped. -/
theorem heapLookup_incref_self (h : PyHeap) (i : Nat) (c : HeapCell)
    (hl : heapLookup h i = some c) :
    heapLookup (incref h i) i = some { c with refcount := c.refcount + 1 } := by
  induction h with
  | nil => simp [heapLookup] at hl
  | cons a t ih =>
    unfold heapLookup at hl ⊢
    by_cases hb : (a.id == i) = true
    · simp only [List.find?_cons, hb] at hl
      have hc : a = c := by simpa using hl
      subst hc
      unfold incref
      simp only [List.map_cons, if_pos hb]
      have hb2 : (({ a with refcount := a.refcount + 1 } : HeapCell).id == i) = true := hb
      simp only [List.find?_cons, hb2]
    · rw [Bool.not_eq_true] at hb
      simp only [List.find?_cons, hb] at hl
      have ht := ih hl
      unfold incref
      simp only [List.map_cons, hb, Bool.false_eq_true, if_false]
      simp only [List.find?_cons, hb]
      exact ht

/-- A session interaction never turns off the running flag. -/
theorem stepSession_running (op : SessionOp) (s : InterpreterSession)
    (hs : s.running = true) : (stepSession op s).running = true := by
  cases op with
  | ensure v path =>
    simp only [stepSession, ensureStarted, hs, if_true]
    split <;> simp [hs]
  | release => simpa [stepSession, releaseInstance] using hs

/-! ## Claim theorems -/

/-- C6 counterexample: the `CPyDeviceBase` constructor registers no error
text for the `typeMismatch` kind of the spec's taxonomy — the claim that a
text is registered for every kind of the eight-kind taxonomy is false. -/
theorem typeMismatch_text_not_registered :
    constructedErrorState.errorTexts ErrorKind.typeMismatch = none := rfl

/-- C6 (amended): construction registers a human-readable text string, once
and before any Initialize call, for each error kind of the taxonomy except
`typeMismatch` (`Pydevice.h` lines 56-62 register exactly seven texts). -/
theorem constructor_registers_seven_error_texts (k : ErrorKind)
    (hk : k ≠ ErrorKind.typeMismatch) :
    ∃ t, constructedErrorState.errorTexts k = some t := by
  cases k <;> simp [constructedErrorState, constructorErrorTexts] at hk ⊢

/-- C6 witness: the amended statement at the `pathConflict` kind. -/
theorem constructor_registers_seven_error_texts_witness :
    ∃ t, constructedErrorState.errorTexts ErrorKind.pathConflict = some t :=
  constructor_registers_seven_error_texts ErrorKind.pathConflict (by decide)

/-- C10: each invocation of the constructor-installed error handler
overwrites the text registered for the `pythonException` code with the
reported message and appends the message to the log; other codes keep their
texts, and a second exception overwrites the text again, so the text is
always the most recent message. -/
theorem errorHandler_overwrites_pythonException_text (es : ErrorState)
    (m : String) :
    (errorHandler es m).errorTexts ErrorKind.pythonException = some m
    ∧ m ∈ (errorHandler es m).log
    ∧ (∀ k, k ≠ ErrorKind.pythonException →
        (errorHandler es m).errorTexts k = es.errorTexts k)
    ∧ ∀ m2, (errorHandler (errorHandler es m) m2).errorTexts
        ErrorKind.pythonException = some m2 := by
  refine ⟨by simp [errorHandler], by simp [errorHandler], ?_, fun m2 => by simp [errorHandler]⟩
  intro k hk
  simp [errorHandler, hk]

/-- C10 witness: the unchanged-other-codes part at a concrete device state
and message. -/
theorem errorHandler_overwrites_pythonException_text_witness :
    (errorHandler constructedErrorState "boom").errorTexts ErrorKind.classNotFound
      = constructedErrorState.errorTexts ErrorKind.classNotFound :=
  (errorHandler_overwrites_pythonException_text constructedErrorState "boom").2.2.1
    ErrorKind.classNotFound (by decide)

/-- C8: converting a native numeric value in the supported numeric range to
the interpreter representation and back yields the original value — for a
native integer within the 64-bit range, and for a native double, whose
64-bit representation the interpreter float (a C double) carries exactly. -/
theorem numeric_marshal_roundtrip :
    (∀ n : Int, longMin ≤ n → n ≤ longMax →
        toNativeLong (fromNativeLong n) = some n)
    ∧ ∀ bits : Nat, bits < 2 ^ 64 →
        toNativeDouble (fromNativeDouble bits) = some bits := by
  constructor
  · intro n h1 h2
    simp [toNativeLong, fromNativeLong, h1, h2]
  · intro bits hb
    have hm : bits % 2 ^ 64 = bits := Nat.mod_eq_of_lt hb
    simp [toNativeDouble, fromNativeDouble, hm]
    omega

/-- C8 witness: the round trip at the integer 42 and at the 64-bit
representation of the double 3.141592653589793. -/
theorem numeric_marshal_roundtrip_witness :
    toNativeLong (fromNativeLong 42) = some 42
    ∧ toNativeDouble (fromNativeDouble 4614256656552045848)
      = some 4614256656552045848 :=
  ⟨numeric_marshal_roundtrip.1 42 (by decide) (by decide),
   numeric_marshal_roundtrip.2 4614256656552045848 (by decide)⟩

/-- C9: the base class default `InitializeDevice` hook unconditionally
returns `DEVICE_OK`, so the generic device's `Initialize` (which uses the
base hook) succeeds whenever the bridge can instantiate the script class,
regardless of which members the class defines. -/
theorem generic_device_init_no_validation :
    (∀ c : ScriptClass, baseInitializeDeviceHook c = MMReturn.deviceOk)
    ∧ ∀ (valid : String → Bool) (cfg : BridgeConfig) (s : InterpreterSession)
        (d : PyDeviceState),
        (pythonBridgeInit valid cfg s d).1 = MMReturn.deviceOk →
        (cpyDeviceInit valid cfg genericInitializeDeviceHook s d).1
          = MMReturn.deviceOk := by
  refine ⟨fun c => rfl, ?_⟩
  intro valid cfg s d hb
  simp [cpyDeviceInit, hb, genericInitializeDeviceHook, baseInitializeDeviceHook]

/-- C9 witness: a script class with no members at all still initializes the
generic device successfully. -/
theorem generic_device_init_no_validation_witness :
    (cpyDeviceInit (fun _ => true)
      { libraryPath := "p", scriptFound := true, classFound := true,
        ctorRaises := false, scriptClass := { members := [] } }
      genericInitializeDeviceHook noSession freshDevice).1 = MMReturn.deviceOk :=
  generic_device_init_no_validation.2 (fun _ => true)
    { libraryPath := "p", scriptFound := true, classFound := true,
      ctorRaises := false, scriptClass := { members := [] } }
    noSession freshDevice (by decide)

/-- C5: with a session already running at path `p`, every `EnsureStarted`
with the same path succeeds and increments the instance count while leaving
the session running at `p` (so repeated calls succeed in any order); and any
second instance configured with a distinct non-empty library path fails its
`Initialize` with `pathConflict`. -/
theorem ensureStarted_idempotent_and_path_conflict (valid : String → Bool)
    (s : InterpreterSession) (p : String) (hrun : s.running = true)
    (hp : s.libraryPath = p) :
    ((ensureStarted valid s p).1 = MMReturn.deviceOk
     ∧ (ensureStarted valid s p).2.instanceCount = s.instanceCount + 1
     ∧ (ensureStarted valid s p).2.running = true
     ∧ (ensureStarted valid s p).2.libraryPath = p)
    ∧ ∀ (q : String) (cfg : BridgeConfig) (hook : ScriptClass → MMReturn)
        (d : PyDeviceState), p ≠ "" → q ≠ "" → q ≠ p → cfg.libraryPath = q →
        (cpyDeviceInit valid cfg hook s d).1 = MMReturn.err ErrorKind.pathConflict := by
  constructor
  · simp [ensureStarted, hrun, hp]
  · intro q cfg hook d _ _ hqp hcfg
    have hpq : ¬s.libraryPath = cfg.libraryPath := by
      rw [hp, hcfg]
      exact fun e => hqp e.symm
    simp [cpyDeviceInit, pythonBridgeInit, ensureStarted, hrun, hpq]

/-- C5 witness: a second instance with path "b" against a session running
at the non-empty path "a" fails with `pathConflict`, while a same-path
`EnsureStarted` succeeds. -/
theorem ensureStarted_idempotent_and_path_conflict_witness :
    (ensureStarted (fun _ => true)
      { running := true, libraryPath := "a", instanceCount := 1 } "a").1
      = MMReturn.deviceOk
    ∧ (cpyDeviceInit (fun _ => true)
        { libraryPath := "b", scriptFound := true, classFound := true,
          ctorRaises := false, scriptClass := { members := [] } }
        genericInitializeDeviceHook
        { running := true, libraryPath := "a", instanceCount := 1 }
        freshDevice).1 = MMReturn.err ErrorKind.pathConflict :=
  ⟨(ensureStarted_idempotent_and_path_conflict (fun _ => true)
      { running := true, libraryPath := "a", instanceCount := 1 } "a" rfl rfl).1.1,
   (ensureStarted_idempotent_and_path_conflict (fun _ => true)
      { running := true, libraryPath := "a", instanceCount := 1 } "a" rfl rfl).2
     "b" _ genericInitializeDeviceHook freshDevice (by decide) (by decide)
     (by decide) rfl⟩

/-- C7: once the interpreter session is running it is never stopped — every
sequence of lifecycle interactions preserves the running flag, and both
`ReleaseInstance` and the device `Shutdown` leave the flag untouched even
when the instance count reaches zero. -/
theorem interpreter_never_stopped :
    (∀ (ops : List SessionOp) (s : InterpreterSession), s.running = true →
        (runSession ops s).running = true)
    ∧ (∀ s : InterpreterSession, (releaseInstance s).running = s.running)
    ∧ ∀ (s : InterpreterSession) (d : PyDeviceState),
        ((cpyShutdown s d).1).running = s.running := by
  refine ⟨?_, fun s => rfl, ?_⟩
  · intro ops
    induction ops with
    | nil => intro s hs; simpa [runSession] using hs
    | cons op rest ih =>
      intro s hs
      have h1 := stepSession_running op s hs
      simpa [runSession, List.foldl_cons] using ih (stepSession op s) h1
  · intro s d
    simp only [cpyShutdown]
    split <;> simp [releaseInstance]

/-- C7 witness: a trace that releases the last instance twice and then even
tries a conflicting `EnsureStarted` still leaves the interpreter running. -/
theorem interpreter_never_stopped_witness :
    (runSession [SessionOp.release, SessionOp.release, SessionOp.ensure false "other"]
      { running := true, libraryPath := "p", instanceCount := 1 }).running = true :=
  interpreter_never_stopped.1
    [SessionOp.release, SessionOp.release, SessionOp.ensure false "other"]
    { running := true, libraryPath := "p", instanceCount := 1 } rfl

/-- C2: whenever `Initialize` fails — whether in the bridge step or in the
`InitializeDevice` hook — it performs the `Shutdown` unwind before returning
the failing step's error code, leaving the device uninitialized holding no
resources; and the `Shutdown` unwind is idempotent, also on a partially
constructed binding. -/
theorem init_failure_shutdown_unwind :
    (∀ (valid : String → Bool) (cfg : BridgeConfig)
        (hook : ScriptClass → MMReturn) (s : InterpreterSession)
        (d : PyDeviceState),
        (cpyDeviceInit valid cfg hook s d).1 ≠ MMReturn.deviceOk →
        (cpyDeviceInit valid cfg hook s d).2.2.devState = DevState.uninitialized
        ∧ (cpyDeviceInit valid cfg hook s d).2.2.objectHeld = false
        ∧ (cpyDeviceInit valid cfg hook s d).2.2.sessionRef = false
        ∧ ((cpyDeviceInit valid cfg hook s d).1 = (pythonBridgeInit valid cfg s d).1
           ∨ (cpyDeviceInit valid cfg hook s d).1 = hook cfg.scriptClass))
    ∧ ∀ (s : InterpreterSession) (d : PyDeviceState),
        cpyShutdown (cpyShutdown s d).1 (cpyShutdown s d).2 = cpyShutdown s d := by
  constructor
  · intro valid cfg hook s d hfail
    by_cases hb : (pythonBridgeInit valid cfg s d).1 = MMReturn.deviceOk
    · by_cases hh : hook cfg.scriptClass = MMReturn.deviceOk
      · exact absurd (by simp [cpyDeviceInit, hb, hh]) hfail
      · simp [cpyDeviceInit, hb, hh, cpyShutdown]
    · simp [cpyDeviceInit, hb, cpyShutdown]
  · intro s d
    simp [cpyShutdown]

/-- C2 witness: a device whose script file is missing fails `Initialize` and
is left uninitialized with no held resources. -/
theorem init_failure_shutdown_unwind_witness :
    (cpyDeviceInit (fun _ => true)
      { libraryPath := "p", scriptFound := false, classFound := true,
        ctorRaises := false, scriptClass := { members := [] } }
      (fun _ => MMReturn.deviceOk) noSession freshDevice).2.2.devState
      = DevState.uninitialized
    ∧ (cpyDeviceInit (fun _ => true)
        { libraryPath := "p", scriptFound := false, classFound := true,
          ctorRaises := false, scriptClass := { members := [] } }
        (fun _ => MMReturn.deviceOk) noSession freshDevice).2.2.objectHeld = false
    ∧ (cpyDeviceInit (fun _ => true)
        { libraryPath := "p", scriptFound := false, classFound := true,
          ctorRaises := false, scriptClass := { members := [] } }
        (fun _ => MMReturn.deviceOk) noSession freshDevice).2.2.sessionRef = false
    ∧ ((cpyDeviceInit (fun _ => true)
        { libraryPath := "p", scriptFound := false, classFound := true,
          ctorRaises := false, scriptClass := { members := [] } }
        (fun _ => MMReturn.deviceOk) noSession freshDevice).1
        = (pythonBridgeInit (fun _ => true)
            { libraryPath := "p", scriptFound := false, classFound := true,
              ctorRaises := false, scriptClass := { members := [] } }
            noSession freshDevice).1
       ∨ (cpyDeviceInit (fun _ => true)
          { libraryPath := "p", scriptFound := false, classFound := true,
            ctorRaises := false, scriptClass := { members := [] } }
          (fun _ => MMReturn.deviceOk) noSession freshDevice).1
          = MMReturn.deviceOk) :=
  init_failure_shutdown_unwind.1 (fun _ => true)
    { libraryPath := "p", scriptFound := false, classFound := true,
      ctorRaises := false, scriptClass := { members := [] } }
    (fun _ => MMReturn.deviceOk) noSession freshDevice (by decide)

/-- C4: a camera script class lacking the mandatory `trigger` member makes
`Initialize` fail with `missingProperty` (even though the bridge could
instantiate the class) and leaves the device uninitialized. -/
theorem missing_trigger_fails_initialization (valid : String → Bool)
    (cfg : BridgeConfig) (s : InterpreterSession) (d : PyDeviceState)
    (hmem : cfg.scriptClass.members.contains "trigger" = false)
    (hb : (pythonBridgeInit valid cfg s d).1 = MMReturn.deviceOk) :
    (cpyDeviceInit valid cfg cameraInitializeDeviceHook s d).1
      = MMReturn.err ErrorKind.missingProperty
    ∧ (cpyDeviceInit valid cfg cameraInitializeDeviceHook s d).2.2.devState
      = DevState.uninitialized := by
  have hhook : cameraInitializeDeviceHook cfg.scriptClass
      = MMReturn.err ErrorKind.missingProperty := by
    unfold cameraInitializeDeviceHook
    cases hc : cfg.scriptClass.members.contains "trigger" with
    | false => simp
    | true =>
      rw [hc] at hmem
      exact absurd hmem (by decide)
  constructor <;> simp [cpyDeviceInit, hb, hhook, cpyShutdown]

/-- C4 witness: a camera script defining only `wait` fails with
`missingProperty` and stays uninitialized. -/
theorem missing_trigger_fails_initialization_witness :
    (cpyDeviceInit (fun _ => true)
      { libraryPath := "p", scriptFound := true, classFound := true,
        ctorRaises := false, scriptClass := { members := ["wait"] } }
      cameraInitializeDeviceHook noSession freshDevice).1
      = MMReturn.err ErrorKind.missingProperty
    ∧ (cpyDeviceInit (fun _ => true)
        { libraryPath := "p", scriptFound := true, classFound := true,
          ctorRaises := false, scriptClass := { members := ["wait"] } }
        cameraInitializeDeviceHook noSession freshDevice).2.2.devState
      = DevState.uninitialized :=
  missing_trigger_fails_initialization (fun _ => true)
    { libraryPath := "p", scriptFound := true, classFound := true,
      ctorRaises := false, scriptClass := { members := ["wait"] } }
    noSession freshDevice (by decide) (by decide)

/-- C3: when the script-side `trigger` callable raises during `SnapImage` on
a Ready camera, `SnapImage` returns the `pythonException`-tagged native code
(the raw exception never crosses the boundary — errors only travel as
`MMReturn` values), the camera state is untouched and still Ready, the error
text for the code carries the exception message, and a subsequent
non-raising `SnapImage` succeeds. -/
theorem snap_exception_translated (cam : CameraState) (es : ErrorState)
    (h : PyHeap) (msg : String) (wr : Option String) (fid : Nat)
    (fpx : List Nat) (hready : cam.base.devState = DevState.ready) :
    (snapImage cam es h (some msg) wr fid fpx).1
      = MMReturn.err ErrorKind.pythonException
    ∧ (snapImage cam es h (some msg) wr fid fpx).2.1 = cam
    ∧ (snapImage cam es h (some msg) wr fid fpx).2.1.base.devState
      = DevState.ready
    ∧ (snapImage cam es h (some msg) wr fid fpx).2.2.1.errorTexts
        ErrorKind.pythonException = some msg
    ∧ ∀ (es2 : ErrorState) (h2 : PyHeap) (fid2 : Nat) (fpx2 : List Nat),
        (snapImage (snapImage cam es h (some msg) wr fid fpx).2.1 es2 h2
          none none fid2 fpx2).1 = MMReturn.deviceOk := by
  refine ⟨rfl, rfl, hready, by simp [snapImage, errorHandler], ?_⟩
  intro es2 h2 fid2 fpx2
  simp [snapImage, ite_self]

/-- C3 witness: a Ready camera whose trigger raises "boom" gets the
`pythonException` code back from `SnapImage`. -/
theorem snap_exception_translated_witness :
    (snapImage ⟨⟨DevState.ready, true, true⟩, none, none, false⟩
      constructedErrorState [] (some "boom") none 7 [1, 2]).1
      = MMReturn.err ErrorKind.pythonException :=
  (snap_exception_translated ⟨⟨DevState.ready, true, true⟩, none, none, false⟩
    constructedErrorState [] "boom" none 7 [1, 2] rfl).1

/-- C1: when `GetImageBuffer` hands out a pointer (buffer id and pixel data),
the camera retains the owning `lastImage_` handle, and the buffer survives
any number of interpreter reclamation rounds with its pixel data unchanged;
the handle is released again by the next successful `SnapImage` and by
`Shutdown` — exactly the interval during which the pointer stays valid. -/
theorem buffer_lifetime_until_snap_or_shutdown (cam : CameraState)
    (h : PyHeap) (i : Nat) (pix : List Nat) (cam' : CameraState) (h' : PyHeap)
    (hinv : ∀ j, cam.lastImage = some j →
      ∃ ce, heapLookup h j = some ce ∧ 1 ≤ ce.refcount)
    (hget : getImageBuffer cam h = (some (i, pix), cam', h')) :
    cam'.lastImage = some i
    ∧ (∃ ce, heapLookup h' i = some ce ∧ ce.pixels = pix ∧ 1 ≤ ce.refcount
        ∧ ∀ rounds, heapLookup (reclaimRounds rounds h') i = some ce)
    ∧ ((cameraShutdown cam' h').1).lastImage = none
    ∧ ∀ (es : ErrorState) (fid : Nat) (fpx : List Nat),
        ((snapImage cam' es h' none none fid fpx).2.1).lastImage = none := by
  unfold getImageBuffer at hget
  cases hattr : cam.imageAttr with
  | none =>
    simp only [hattr] at hget
    simp at hget
  | some i0 =>
    simp only [hattr] at hget
    cases hlook : heapLookup h i0 with
    | none =>
      simp only [hlook] at hget
      simp at hget
    | some c =>
      simp only [hlook] at hget
      by_cases hlast : cam.lastImage = some i0
      · rw [if_pos hlast] at hget
        simp only [Prod.mk.injEq, Option.some.injEq] at hget
        obtain ⟨⟨hi, hpix⟩, hcam, hh⟩ := hget
        subst hi hpix hcam hh
        obtain ⟨ce, hce, hrc⟩ := hinv i0 hlast
        have hcec : c = ce := by
          rw [hlook] at hce
          exact (Option.some.injEq _ _).mp hce
        subst hcec
        refine ⟨hlast, ⟨c, hlook, rfl, hrc,
          fun rounds => heapLookup_reclaimRounds rounds h i0 c hlook hrc⟩,
          rfl, ?_⟩
        intro es fid fpx
        simp [snapImage, ite_self]
      · rw [if_neg hlast] at hget
        simp only [Prod.mk.injEq, Option.some.injEq] at hget
        obtain ⟨⟨hi, hpix⟩, hcam, hh⟩ := hget
        subst hi hpix hh
        have hrc : 1 ≤ ({ c with refcount := c.refcount + 1 } : HeapCell).refcount :=
          Nat.succ_le_succ (Nat.zero_le _)
        have hlook2 : heapLookup (incref h i0) i0
            = some { c with refcount := c.refcount + 1 } :=
          heapLookup_incref_self h i0 c hlook
        refine ⟨?_, ⟨{ c with refcount := c.refcount + 1 }, hlook2, rfl, hrc,
          fun rounds =>
            heapLookup_reclaimRounds rounds (incref h i0) i0 _ hlook2 hrc⟩,
          ?_, ?_⟩
        · rw [← hcam]
        · rw [← hcam]
          rfl
        · intro es fid fpx
          rw [← hcam]
          simp [snapImage, ite_self]

/-- C1 witness: a camera whose script object exposes buffer 5 with pixels
[9, 8]; after `GetImageBuffer` the handle is retained in `lastImage_`. -/
theorem buffer_lifetime_until_snap_or_shutdown_witness :
    ((getImageBuffer ⟨⟨DevState.ready, true, true⟩, none, some 5, false⟩
        [⟨5, 1, [9, 8]⟩]).2.1).lastImage = some 5 :=
  (buffer_lifetime_until_snap_or_shutdown
    ⟨⟨DevState.ready, true, true⟩, none, some 5, false⟩ [⟨5, 1, [9, 8]⟩]
    5 [9, 8] ⟨⟨DevState.ready, true, true⟩, some 5, some 5, false⟩
    [⟨5, 2, [9, 8]⟩] (fun _ hj => Option.noConfusion hj) rfl).1

end PyDevice
